import Mathlib

/-!
Verification of the Tron core (src/tron/service.py and src/tron/mcp.py): a shallow
embedding of the service-supervision state machines, the reconfiguration
(`absorb_previous`) algorithm, snapshot/restore, and the MCP scheduling and
persistence helpers, together with theorems settling the specification claims.

Machine integers are modelled as `Nat`/`Int`; Python float arithmetic in
`sleep_time` is modelled exactly over `ℚ`; fallible code returns `Option`/`Except`.
The generic state-machine mechanics (`tron/utils/state.py`) and the external
`Job`/`Run`/`NodePool` contracts are not part of src and are modelled from the
spec where noted.
-/

set_option linter.unusedVariables false

namespace Tron

/-! ## ServiceInstance state machine (src/tron/service.py lines 18-32) -/

/-- The seven `ServiceInstance.ServiceInstanceState` states declared in
src/tron/service.py lines 20-27. -/
inductive SIState
  | down | up | failed | stopping | monitoring | starting | unknown
  deriving DecidableEq, Repr

/-- The `ServiceInstance` transition table exactly as assembled in
src/tron/service.py lines 20-32:
`STATE_FAILED = ServiceInstanceState("failed", stop=STATE_DOWN, up=STATE_UP)`,
`STATE_STOPPING = ...("stopping", down=STATE_DOWN)`,
`STATE_MONITORING = ...("monitoring", down=STATE_FAILED, stop=STATE_STOPPING, up=STATE_UP)`,
`STATE_STARTING = ...("starting", down=STATE_FAILED, monitor=STATE_MONITORING, stop=STATE_STOPPING)`,
`STATE_UNKNOWN = ...("unknown", monitor=STATE_MONITORING)`,
`STATE_MONITORING['monitor_fail'] = STATE_UNKNOWN`,
`STATE_UP['stop'] = STATE_STOPPING`, `STATE_UP['monitor'] = STATE_MONITORING`,
`STATE_DOWN['start'] = STATE_STARTING`. -/
def siTrans : SIState → String → Option SIState
  | .failed, "stop" => some .down
  | .failed, "up" => some .up
  | .stopping, "down" => some .down
  | .monitoring, "down" => some .failed
  | .monitoring, "stop" => some .stopping
  | .monitoring, "up" => some .up
  | .monitoring, "monitor_fail" => some .unknown
  | .starting, "down" => some .failed
  | .starting, "monitor" => some .monitoring
  | .starting, "stop" => some .stopping
  | .unknown, "monitor" => some .monitoring
  | .up, "stop" => some .stopping
  | .up, "monitor" => some .monitoring
  | .down, "start" => some .starting
  | _, _ => none

/-- Modelled from the spec: `StateMachine.transition` (tron/utils/state.py is not
in src). Per spec §4.1, firing an event looks it up in the current state's
transition map; if present the machine moves to the target (and listeners fire),
if absent the call is a safe no-op. -/
def siTransition (s : SIState) (e : String) : SIState :=
  (siTrans s e).getD s

/-! ## Service state machine (src/tron/service.py lines 188-200) -/

/-- The six `Service.ServiceState` states declared in src/tron/service.py
lines 190-195. -/
inductive SState
  | down | up | degraded | stopping | failed | starting
  deriving DecidableEq, Repr

/-- The `Service` transition table exactly as assembled in
src/tron/service.py lines 190-200:
`STATE_STOPPING = ServiceState("stopping", all_down=STATE_DOWN)`,
`STATE_STARTING = ...("starting", all_up=STATE_UP, failed=STATE_DEGRADED, stop=STATE_STOPPING)`,
`STATE_DOWN['start'] = STATE_STARTING`,
`STATE_DEGRADED.update(dict(stop=STATE_STOPPING, all_up=STATE_UP, all_failed=STATE_FAILED))`,
`STATE_FAILED.update(dict(stop=STATE_STOPPING, up=STATE_DEGRADED, start=STATE_STARTING))`,
`STATE_UP.update(dict(stop=STATE_STOPPING, failed=STATE_DEGRADED, down=STATE_DEGRADED))`. -/
def sTrans : SState → String → Option SState
  | .stopping, "all_down" => some .down
  | .starting, "all_up" => some .up
  | .starting, "failed" => some .degraded
  | .starting, "stop" => some .stopping
  | .down, "start" => some .starting
  | .degraded, "stop" => some .stopping
  | .degraded, "all_up" => some .up
  | .degraded, "all_failed" => some .failed
  | .failed, "stop" => some .stopping
  | .failed, "up" => some .degraded
  | .failed, "start" => some .starting
  | .up, "stop" => some .stopping
  | .up, "failed" => some .degraded
  | .up, "down" => some .degraded
  | _, _ => none

/-- Modelled from the spec: `StateMachine.transition` for the service machine,
same no-op-on-unknown-event semantics as `siTransition` (spec §4.1). -/
def sTransition (s : SState) (e : String) : SState :=
  (sTrans s e).getD s

/-! ## `Service._instance_change` (src/tron/service.py lines 318-343) -/

/-- Input to `_instance_change`: the roster's instance states (in roster order),
the target `count`, the current service machine state, whether
`restart_interval is not None`, and whether `_restart_timer` is truthy. -/
structure ICInput where
  instStates : List SIState
  count : Nat
  svcState : SState
  restartConfigured : Bool
  timerPending : Bool
  deriving DecidableEq, Repr

/-- Output of `_instance_change`: the pruned roster states, the resulting
machine state, the resulting `_restart_timer` pending flag, and whether this
call armed a new restart timer (`reactor.callLater`). -/
structure ICOutput where
  instStates : List SIState
  svcState : SState
  timerPending : Bool
  armed : Bool
  deriving DecidableEq, Repr

/-- `Service._instance_change` (src/tron/service.py lines 318-343): prune
instances whose state is `down`; then `all_down` if no instances remain, else
`failed` (plus `all_failed` when every instance is failed) if any instance is
failed, else `down` if fewer instances than `count`, else `all_up` if every
instance is up; finally, if the machine now sits in `degraded` or `failed` and
`restart_interval` is configured and no `_restart_timer` is pending, arm one. -/
def instance_change (i : ICInput) : ICOutput :=
  let insts := i.instStates.filter (fun st => st ≠ SIState.down)
  let s1 :=
    if insts.isEmpty then sTransition i.svcState "all_down"
    else if insts.any (fun st => st = SIState.failed) then
      let s := sTransition i.svcState "failed"
      if insts.all (fun st => st = SIState.failed) then sTransition s "all_failed" else s
    else if insts.length < i.count then sTransition i.svcState "down"
    else if insts.all (fun st => st = SIState.up) then sTransition i.svcState "all_up"
    else i.svcState
  if (s1 = SState.degraded ∨ s1 = SState.failed) ∧ i.restartConfigured = true ∧ i.timerPending = false then
    ⟨insts, s1, true, true⟩
  else
    ⟨insts, s1, i.timerPending, false⟩

/-- The aggregate-state recomputation priority exactly as claim C5 words it: the
list of events fired on the service machine, chosen by priority from the pruned
roster. This definition follows the claim's words, to be compared against
`instance_change`, which is translated from the source. -/
def instance_change_priority (insts : List SIState) (count : Nat) : List String :=
  if insts.isEmpty then ["all_down"]
  else if insts.any (fun st => st = SIState.failed) then
    if insts.all (fun st => st = SIState.failed) then ["failed", "all_failed"]
    else ["failed"]
  else if insts.length < count then ["down"]
  else if insts.all (fun st => st = SIState.up) then ["all_up"]
  else []

/-! ## `sleep_time` (src/tron/mcp.py lines 13-22) -/

/-- `SECS_PER_DAY = 86400` (src/tron/mcp.py line 13). -/
def SECS_PER_DAY : ℤ := 86400

/-- `MICRO_SEC = .000001` (src/tron/mcp.py line 14), exact over `ℚ`. -/
def MICRO_SEC : ℚ := 1 / 1000000

/-- Microseconds per day, the modulus of Python `timedelta` normalization. -/
def USEC_PER_DAY : ℤ := 86400 * 1000000

/-- `sleep_time(run_time)` (src/tron/mcp.py lines 19-22). Modelled from the
spec for the externals: `timeutils.current_time()` (tron/utils/timeutils.py is
not in src) returns the current datetime, passed here as `now`; datetimes are
integer microsecond timestamps and Python `datetime` subtraction yields a
`timedelta` normalized to `(days, seconds, microseconds)` with
`0 ≤ seconds < 86400` and `0 ≤ microseconds < 10^6` (days may be negative),
i.e. floor division by the positive moduli, which `Int` `/` and `%` implement.
The float expression `days * 86400 + seconds + microseconds * .000001` and the
`max(0, ...)` floor are modelled exactly over `ℚ`. -/
def sleep_time (run_time now : ℤ) : ℚ :=
  let sleepUs : ℤ := run_time - now
  let days : ℤ := sleepUs / USEC_PER_DAY
  let rem : ℤ := sleepUs % USEC_PER_DAY
  let seconds : ℤ := rem / 1000000
  let micros : ℤ := rem % 1000000
  max 0 ((days : ℚ) * 86400 + (seconds : ℚ) + (micros : ℚ) * MICRO_SEC)

/-! ## `StateHandler.store_data` (src/tron/mcp.py lines 28-64) -/

/-- The `StateHandler` fields that `store_data` consults:
`writing_enabled` and `write_pid` (src/tron/mcp.py lines 29-33). -/
structure StateHandlerSt where
  writingEnabled : Bool
  writePid : Option Nat
  deriving DecidableEq, Repr

/-- Observable outcome of one `store_data` call: whether a writer child was
forked (a snapshot write initiated), whether `reactor.callLater(STATE_SLEEP,
self.store_data)` was issued (the periodic re-arm), and the resulting
`write_pid`. -/
structure StoreResult where
  forkedWriter : Bool
  rearmed : Bool
  writePid : Option Nat
  deriving DecidableEq, Repr

/-- `StateHandler.store_data` (src/tron/mcp.py lines 46-64). `childExited`
models `os.waitpid(write_pid, os.WNOHANG)[0] ≠ 0` (the previous writer child
has exited); `newPid` models the child pid `os.fork()` returns to the parent.
The guard at line 49 returns immediately — forking nothing and arming nothing —
when writing is disabled, or when a previous write is still outstanding;
otherwise the parent forks the writer, records its pid, and re-arms. -/
def store_data (h : StateHandlerSt) (childExited : Bool) (newPid : Nat) : StoreResult :=
  if !h.writingEnabled || (h.writePid.isSome && !childExited) then
    ⟨false, false, h.writePid⟩
  else
    ⟨true, true, some newPid⟩

/-! ## `MasterControlProgram.schedule_next_run` (src/tron/mcp.py lines 149-161) -/

/-- Modelled from the spec: the external `Run` contract (tron/job.py is not in
src), spec §6 — the mutually informative boolean flags the MCP consults. -/
structure JobRun where
  isScheduled : Bool
  isQueued : Bool
  isRunning : Bool
  isFailed : Bool
  isSuccess : Bool
  deriving DecidableEq, Repr

/-- Modelled from the spec: the external `Job` contract (tron/job.py is not in
src), spec §3/§6 — an enabled flag, the ordered run history (most recent
first: the code reads `job.runs[0]` for the pending run), and whether the
job's schedule can produce a next run (`next_run() -> Run|None`). -/
structure Job where
  enabled : Bool
  hasNext : Bool
  runs : List JobRun
  deriving DecidableEq, Repr

/-- Modelled from the spec: `Job.next_run` (tron/job.py is not in src). Per
spec §4.4 the job is asked for its next run; when it yields one, the job then
"already has a pending scheduled run", which `schedule_next_run` observes as
`job.runs[0].is_scheduled` — so a produced run is a fresh scheduled run placed
at the head of the run history. -/
def jobNextRun (j : Job) : Option JobRun × Job :=
  if j.hasNext then
    let r : JobRun := ⟨true, false, false, false, false⟩
    (some r, { j with runs := r :: j.runs })
  else (none, j)

/-- `MasterControlProgram.schedule_next_run` (src/tron/mcp.py lines 155-161):
a no-op when `job.runs` is nonempty and `job.runs[0].is_scheduled`; otherwise
asks the job for its next run and, if there is one, `_schedule` (lines 149-153)
arms a `reactor.callLater` timer for it. Returns the updated job and whether a
timer was armed. -/
def schedule_next_run (j : Job) : Job × Bool :=
  match j.runs with
  | r :: _ =>
    if r.isScheduled then (j, false)
    else
      match jobNextRun j with
      | (none, j') => (j', false)
      | (some _, j') => (j', true)
  | [] =>
    match jobNextRun j with
    | (none, j') => (j', false)
    | (some _, j') => (j', true)

/-! ## ServiceInstance dynamics (src/tron/service.py lines 34-185)

One instance's event-driven behaviour: the state machine plus the in-flight
action commands. `startAct`/`monitorAct`/`stopAct` model whether the Python
attributes `start_action`/`monitor_action`/`stop_action` currently hold an
action object; `startN`/`monitorN`/`stopN` count the commands dispatched via
`node.run` whose COMPLETE/FAILSTART callback has not yet fired (in-flight
actions); `timers` counts pending `reactor.callLater` monitor timers armed by
`_queue_monitor`. -/

/-- Per-service configuration a `ServiceInstance` consults: whether the command
template renders (`self.command`, lines 69-76), whether the pid file template
renders (`self.pid_file`, lines 57-67), and `monitor_interval` (line 80). -/
structure InstCfg where
  cmdOk : Bool
  pidOk : Bool
  monitorInterval : Int
  deriving DecidableEq, Repr

/-- Dynamic state of one `ServiceInstance`. -/
structure InstSt where
  st : SIState
  startAct : Bool
  monitorAct : Bool
  stopAct : Bool
  startN : Nat
  monitorN : Nat
  stopN : Nat
  timers : Nat
  deriving DecidableEq, Repr

/-- A fresh instance as built by `ServiceInstance.__init__` (lines 34-47):
machine at `down`, no actions, nothing in flight. -/
def instInit : InstSt := ⟨SIState.down, false, false, false, 0, 0, 0, 0⟩

/-- Events driving one instance: the public methods `start`/`stop`, a pending
monitor timer firing `_run_monitor`, and the COMPLETE (with exit status) /
FAILSTART callbacks of each dispatched action. -/
inductive InstEv
  | start
  | stop
  | runMonitor
  | startComplete (exitStatus : Int)
  | startFailstart
  | monitorComplete (exitStatus : Int)
  | monitorFailstart
  | stopComplete (exitStatus : Int)
  | stopFailstart
  deriving DecidableEq, Repr

/-- `ServiceInstance._queue_monitor` (lines 78-81): drop the recorded monitor
action and, when `monitor_interval > 0`, arm a monitor timer. -/
def queueMonitor (cfg : InstCfg) (s : InstSt) : InstSt :=
  { s with monitorAct := false
           timers := if cfg.monitorInterval > 0 then s.timers + 1 else s.timers }

/-- `ServiceInstance.kill_instance` (lines 165-174): asserts the pid file is
available (`none` models the AssertionError) and dispatches the kill command as
`self.stop_action`. -/
def killInstance (cfg : InstCfg) (s : InstSt) : Option InstSt :=
  if cfg.pidOk then some { s with stopAct := true, stopN := s.stopN + 1 }
  else none

/-- One step of a `ServiceInstance` (src/tron/service.py lines 78-185).
`none` means the event is not enabled there (a callback with no matching
in-flight command) or the code raises (`InvalidStateError` in `start`, the
`kill_instance` assertion). Mirrors the source:
* `start` (125-140): requires `down`; fires `start`; with an unrenderable
  command goes through `_start_complete_failstart`, else dispatches the start
  command;
* `_start_complete_callback` (142-152): nonzero exit fires `down`; else if the
  machine is in `stopping` (someone stopped us while starting) kills now; else
  queues a monitor cycle;
* `_start_complete_failstart` (154-157): fires `down`;
* `stop` (159-163): fires `stop`; if the machine landed in (or already sat in)
  `stopping`, kills;
* `_run_monitor` (83-103): consumes a pending timer; skips when a monitor
  action is already recorded; fires `monitor`; with no pid file goes through
  `_monitor_complete_failstart`, else dispatches the monitor command;
* `_monitor_complete_callback` (105-116): nonzero exit fires `down`, else
  fires `up` and queues the next cycle;
* `_monitor_complete_failstart` (118-123): fires `monitor_fail` and queues;
* `_stop_complete_callback` (176-181) and `_stop_complete_failstart` (183-185):
  queue a monitor cycle; only the COMPLETE callback clears `stop_action`. -/
def instStep (cfg : InstCfg) (s : InstSt) : InstEv → Option InstSt
  | .start =>
    if s.st ≠ SIState.down then none
    else
      let s1 := { s with st := siTransition s.st "start" }
      if cfg.cmdOk then some { s1 with startAct := true, startN := s1.startN + 1 }
      else some { s1 with st := siTransition s1.st "down", startAct := false }
  | .startComplete exitStatus =>
    if s.startAct = true ∧ 1 ≤ s.startN then
      let s1 :=
        if exitStatus ≠ 0 then some { s with st := siTransition s.st "down" }
        else if s.st = SIState.stopping then killInstance cfg s
        else some (queueMonitor cfg s)
      s1.map fun t => { t with startAct := false, startN := t.startN - 1 }
    else none
  | .startFailstart =>
    if s.startAct = true ∧ 1 ≤ s.startN then
      some { s with st := siTransition s.st "down", startAct := false, startN := s.startN - 1 }
    else none
  | .stop =>
    let s1 := { s with st := siTransition s.st "stop" }
    if s1.st = SIState.stopping then killInstance cfg s1 else some s1
  | .runMonitor =>
    if s.timers = 0 then none
    else
      let s1 := { s with timers := s.timers - 1 }
      if s1.monitorAct then some s1
      else
        let s2 := { s1 with st := siTransition s1.st "monitor" }
        if cfg.pidOk then some { s2 with monitorAct := true, monitorN := s2.monitorN + 1 }
        else some (queueMonitor cfg { s2 with st := siTransition s2.st "monitor_fail" })
  | .monitorComplete exitStatus =>
    if s.monitorAct = true ∧ 1 ≤ s.monitorN then
      let t :=
        if exitStatus ≠ 0 then { s with st := siTransition s.st "down" }
        else queueMonitor cfg { s with st := siTransition s.st "up" }
      some { t with monitorAct := false, monitorN := t.monitorN - 1 }
    else none
  | .monitorFailstart =>
    if 1 ≤ s.monitorN then
      let t := queueMonitor cfg { s with st := siTransition s.st "monitor_fail" }
      some { t with monitorAct := false, monitorN := t.monitorN - 1 }
    else none
  | .stopComplete exitStatus =>
    if s.stopAct = true ∧ 1 ≤ s.stopN then
      let t := queueMonitor cfg s
      some { t with stopAct := false, stopN := t.stopN - 1 }
    else none
  | .stopFailstart =>
    if 1 ≤ s.stopN then
      let t := queueMonitor cfg s
      some { t with stopN := t.stopN - 1 }
    else none

/-- Run a sequence of instance events from a state. -/
def instRun (cfg : InstCfg) (s : InstSt) : List InstEv → Option InstSt
  | [] => some s
  | e :: es => (instStep cfg s e).bind fun t => instRun cfg t es

/-- Total number of commands currently in flight for an instance. -/
def inFlight (s : InstSt) : Nat := s.startN + s.monitorN + s.stopN

/-! ## Service roster operations (src/tron/service.py lines 188-468)

The `Service` record and the operations the claims exercise. A roster entry
abstracts one `ServiceInstance` object to the data these operations read and
write: its `instance_number`, its node's hostname, its machine state, and
counters of the start/monitor/kill commands it has dispatched via `node.run`.
Instances are identified by `instance_number` (unique in every modelled flow),
standing in for Python object identity. -/

/-- One `ServiceInstance` as seen from its owning `Service`. -/
structure Inst where
  instance_number : Nat
  node : String
  st : SIState
  startDispatched : Nat
  monitorDispatched : Nat
  stopDispatched : Nat
  deriving DecidableEq, Repr

/-- Modelled from the spec: the external `NodePool` contract (tron/node.py is
not in src), spec §2/§6 — an identity (Python compares pools with `!=`),
an ordered collection of nodes (here: hostnames), membership/lookup by
hostname, and a `next_round_robin` cursor. -/
structure NodePool where
  poolId : Nat
  nodes : List String
  rr : Nat
  deriving DecidableEq, Repr

/-- A `Service` (src/tron/service.py lines 202-220): configuration plus the
machine (`none` once `absorb_previous` has disowned it, line 363), the
`_restart_timer` pending flag, and the instance roster. `pidOk`/`cmdOk` model
whether the pid-file/command templates render for this service's context;
`restartConfigured` models `restart_interval is not None`. -/
structure Service where
  command : String
  scheduler : Option Nat
  node_pool : NodePool
  count : Nat
  pidOk : Bool
  cmdOk : Bool
  restartConfigured : Bool
  machine : Option SState
  timerPending : Bool
  instances : List Inst
  deriving DecidableEq, Repr

/-- Errors the modelled service operations can raise. `unboundLocal` is
Python's UnboundLocalError; `assertionError` covers the `kill_instance`
assertion and round-robin selection from an empty pool; `zeroDivision` is
`count / len(nodes)` with an empty pool; `outOfFuel` marks the
`while len(self.instances) < self.count` loop spinning without progress
(`build_instance` returning `None` forever). -/
inductive SvcErr
  | unboundLocal
  | assertionError
  | zeroDivision
  | outOfFuel
  deriving DecidableEq, Repr

/-- `self.instances.sort(key=lambda i: i.instance_number)` (lines 290, 380,
468): stable sort of the roster by instance number. -/
def sortInsts (l : List Inst) : List Inst :=
  List.insertionSort (fun a b => a.instance_number ≤ b.instance_number) l

/-- Field assignment on the instance object holding number `n`, represented as
an update of that roster entry. -/
def updNum (n : Nat) (f : Inst → Inst) (l : List Inst) : List Inst :=
  l.map fun i => if i.instance_number = n then f i else i

/-- Whether an instance counts as live for `absorb_previous`'s
`current_instances` filters (lines 382-383 and 412-413): its state is not
`stopping`, `down` or `failed`. -/
def liveInst (i : Inst) : Prop :=
  i.st ≠ SIState.stopping ∧ i.st ≠ SIState.down ∧ i.st ≠ SIState.failed

instance : DecidablePred liveInst := fun i => by unfold liveInst; infer_instance

/-- The `_instance_change` listener (lines 318-343) as it acts on the whole
service record, delegating the state logic to `instance_change`. When the
machine has been disowned (`None`) the Python code would raise; that is
unreachable for the services modelled here (listeners are rewired to the
absorbing service before any stop is issued), modelled as the identity. -/
def Service.on_instance_change (s : Service) : Service :=
  match s.machine with
  | none => s
  | some m =>
    let o := instance_change ⟨s.instances.map Inst.st, s.count, m, s.restartConfigured, s.timerPending⟩
    { s with instances := s.instances.filter (fun i => i.st ≠ SIState.down)
             machine := some o.svcState
             timerPending := o.timerPending }

/-- `ServiceInstance.stop` (lines 159-163) with `kill_instance` (165-174) as it
affects the owning service, for the instance holding number `num`. The `stop`
transition fires first (notifying the `_instance_change` listener when the
event is legal in the current state); then, if the machine is in `stopping`,
the kill command is dispatched — asserting the pid file renders. An absent
number is a no-op (the object is no longer in the roster). -/
def Service.stop_instance (s : Service) (num : Nat) : Except SvcErr Service :=
  match (s.instances.find? fun i => i.instance_number = num).map Inst.st with
  | none => .ok s
  | some st0 =>
    let fired := (siTrans st0 "stop").isSome
    let newSt := siTransition st0 "stop"
    let s1 := { s with instances := updNum num (fun i => { i with st := newSt }) s.instances }
    let s2 := if fired then s1.on_instance_change else s1
    if newSt = SIState.stopping then
      if s.pidOk then
        .ok { s2 with instances := updNum num (fun i => { i with stopDispatched := i.stopDispatched + 1 }) s2.instances }
      else .error SvcErr.assertionError
    else .ok s2

/-- `Service._find_unused_instance_number` (lines 296-300): the minimum of
`set(range(0, count))` minus the numbers in use, `None` when that set is
empty. `List.range` is ascending, so the head of the filtered list is the
minimum. -/
def Service.find_unused_instance_number (s : Service) : Option Nat :=
  ((List.range s.count).filter fun k => k ∉ s.instances.map Inst.instance_number).head?

/-- `Service.build_instance` (lines 302-316) with `_create_instance` (287-294)
and the new instance's `ServiceInstance.start` (125-140) inlined. The node is
drawn from the pool's round robin first (advancing the cursor even when no
instance number is free); with no free number the call logs an error and
returns no instance. Otherwise the instance is created (roster appended and
re-sorted, the `_instance_change` listener wired) and started: the `start`
transition fires the listener, then either the start command is dispatched or,
with an unrenderable command, `_start_complete_failstart` fires `down`
(starting → failed), notifying the listener again. -/
def Service.build_instance (s : Service) : Except SvcErr (Service × Option Nat) :=
  if s.node_pool.nodes = [] then .error SvcErr.assertionError
  else
    let node := s.node_pool.nodes.getD (s.node_pool.rr % s.node_pool.nodes.length) ""
    let s := { s with node_pool := { s.node_pool with rr := s.node_pool.rr + 1 } }
    match s.find_unused_instance_number with
    | none => .ok (s, none)
    | some n =>
      let inst : Inst := ⟨n, node, SIState.down, 0, 0, 0⟩
      let s := { s with instances := sortInsts (s.instances ++ [inst]) }
      let s := { s with instances := updNum n (fun i => { i with st := SIState.starting }) s.instances }
      let s := s.on_instance_change
      if s.cmdOk then
        .ok ({ s with instances := updNum n (fun i => { i with startDispatched := i.startDispatched + 1 }) s.instances }, some n)
      else
        let s := { s with instances := updNum n (fun i => { i with st := SIState.failed }) s.instances }
        .ok (s.on_instance_change, some n)

/-- The `while len(self.instances) < self.count: self.build_instance()` loop
closing `absorb_previous` (lines 423-424), with fuel: each productive
`build_instance` appends one instance, so `count` iterations suffice; running
out of fuel models the Python loop spinning forever when `build_instance`
stops making progress. -/
def Service.fill_instances : Nat → Service → Except SvcErr Service
  | 0, s => if s.instances.length < s.count then .error SvcErr.outOfFuel else .ok s
  | fuel + 1, s =>
    if s.instances.length < s.count then do
      let (s', _) ← s.build_instance
      Service.fill_instances fuel s'
    else .ok s

/-- `Service.absorb_previous` (src/tron/service.py lines 345-424), faithful to
Python local-variable semantics: `removed_instances` is a local of the method
(it is assigned at lines 388, 401, 408 and 420) whose first assignment is
`removed_instances = 0` at line 388 — yet the inherited-instance loop at lines
367-376 executes `removed_instances += 1` (line 376) after stopping each
instance when `rebuild_all_instances` holds, which raises UnboundLocalError on
the first instance, modelled as `.error .unboundLocal` (after that first
instance's `stop()` has already run). The remaining passes: sort the combined
roster; snapshot `current_instances` (line 382); on a node-pool change, stop
live instances on departed nodes and instances exceeding
`optimal = count / len(nodes)` per node; re-snapshot; stop the tail of the
live list when `(len(instances) - removed) - count > 0`; finally build up to
`count`. -/
def Service.absorb_previous (s prev : Service) : Except SvcErr Service := do
  let rebuild := s.command ≠ prev.command ∨ s.scheduler ≠ prev.scheduler
  let s := { s with machine := prev.machine, instances := s.instances ++ prev.instances }
  let s ←
    match prev.instances with
    | [] => pure s
    | i :: _ =>
      if rebuild then do
        let _ ← s.stop_instance i.instance_number
        throw SvcErr.unboundLocal
      else pure s
  let s := { s with instances := sortInsts s.instances }
  let current1 := s.instances.filter liveInst
  let (s, removed) ←
    if s.node_pool.poolId ≠ prev.node_pool.poolId then do
      if s.node_pool.nodes.length = 0 then throw SvcErr.zeroDivision
      let optimal := s.count / s.node_pool.nodes.length
      let res ← current1.foldlM
        (fun (acc : Service × Nat × (String → Nat)) (inst0 : Inst) => do
          let (s, removed, tally) := acc
          if inst0.node ∈ s.node_pool.nodes then
            let tally := fun h => if h = inst0.node then tally h + 1 else tally h
            if tally inst0.node > optimal then do
              let s ← s.stop_instance inst0.instance_number
              pure (s, removed + 1, tally)
            else pure (s, removed, tally)
          else do
            let s ← s.stop_instance inst0.instance_number
            pure (s, removed + 1, tally))
        (s, 0, fun _ => 0)
      pure (res.1, res.2.1)
    else pure (s, 0)
  let current2 := s.instances.filter liveInst
  let count_to_remove : Int := (s.instances.length : Int) - removed - s.count
  let s ←
    if count_to_remove > 0 then
      (current2.drop (current2.length - count_to_remove.toNat)).foldlM
        (fun s i => s.stop_instance i.instance_number) s
    else pure s
  s.fill_instances s.count

/-! ## `Service.data` and `Service.restore` (src/tron/service.py lines 426-468) -/

/-- One persisted instance record: `{'node': hostname, 'instance_number': n,
'state': str(state)}` (lines 433-437). -/
structure InstRecord where
  node : String
  instance_number : Nat
  state : String
  deriving DecidableEq, Repr

/-- The persisted service snapshot: `{'state': str(machine.state),
'instances': [...]}` (lines 428-441). -/
structure ServiceData where
  state : String
  instances : List InstRecord
  deriving DecidableEq, Repr

/-- `str(state)` for instance states — state identity is by name (spec §4.1). -/
def siName : SIState → String
  | .down => "down"
  | .up => "up"
  | .failed => "failed"
  | .stopping => "stopping"
  | .monitoring => "monitoring"
  | .starting => "starting"
  | .unknown => "unknown"

/-- `str(state)` for service states. -/
def sName : SState → String
  | .down => "down"
  | .up => "up"
  | .degraded => "degraded"
  | .stopping => "stopping"
  | .failed => "failed"
  | .starting => "starting"

/-- Modelled from the spec: `state.named_event_by_name(Service.STATE_DOWN,
name)` (tron/utils/state.py is not in src) — spec §4.1/§6: map a stored name
back to the canonical state object by lookup over the known graph (every
service state is reachable from `down`), failing when the name is
unrecognized. -/
def sStateByName : String → Option SState
  | "down" => some .down
  | "up" => some .up
  | "degraded" => some .degraded
  | "stopping" => some .stopping
  | "failed" => some .failed
  | "starting" => some .starting
  | _ => none

/-- `Service.data` (lines 426-441). `none` when the machine has been disowned
(Python would raise reading `self.machine.state`). -/
def Service.data (s : Service) : Option ServiceData :=
  s.machine.map fun m =>
    ⟨sName m, s.instances.map fun i => ⟨i.node, i.instance_number, siName i.st⟩⟩

/-- Restore errors: the stored service state name has no match in the graph. -/
inductive RestoreErr
  | unknownState
  deriving DecidableEq, Repr

/-- `Service.restore` (lines 443-468) with `_create_instance` (287-294) and the
restored instance's `ServiceInstance._run_monitor` (83-103) inlined. The
machine state is set by name lookup (an unknown name is a restore error); a
`down` service restores nothing else. Each record whose node still exists in
the pool is recreated (roster appended and re-sorted, listener wired), forced
directly to `monitoring` (a plain assignment, firing no listener), and given
one monitor cycle: the `monitor` event is not legal in `monitoring` so the
transition is a no-op, then either the monitor command is dispatched, or — with
no renderable pid file — `_monitor_complete_failstart` fires `monitor_fail`
(monitoring → unknown, notifying the listener) and queues a later cycle.
Records whose node is gone are skipped with a logged error. This definition
is one iteration of the restore loop (lines 457-466), for one record. -/
def Service.restore_instance (s : Service) (r : InstRecord) : Service :=
  if r.node ∈ s.node_pool.nodes then
    let inst : Inst := ⟨r.instance_number, r.node, SIState.down, 0, 0, 0⟩
    let s := { s with instances := sortInsts (s.instances ++ [inst]) }
    let s := { s with instances := updNum r.instance_number (fun i => { i with st := SIState.monitoring }) s.instances }
    if s.pidOk then
      { s with instances := updNum r.instance_number (fun i => { i with monitorDispatched := i.monitorDispatched + 1 }) s.instances }
    else
      let s := { s with instances := updNum r.instance_number (fun i => { i with st := SIState.unknown }) s.instances }
      s.on_instance_change
  else s

/-- `Service.restore` (lines 443-468): set the machine state by name lookup
(unknown name is a restore error), return at once for a `down` service,
otherwise restore each record via `restore_instance` and sort the roster. -/
def Service.restore (s : Service) (d : ServiceData) : Except RestoreErr Service := do
  let m ←
    match sStateByName d.state with
    | none => throw RestoreErr.unknownState
    | some m => pure m
  let s := { s with machine := some m }
  if m = SState.down then return s
  let s := d.instances.foldl Service.restore_instance s
  return { s with instances := sortInsts s.instances }

/-! ## Concrete services used by the claim theorems -/

/-- A previous-generation service: one instance, up, command `sleep 100`. -/
def prevS1 : Service :=
  { command := "sleep 100", scheduler := none, node_pool := ⟨1, ["node1"], 1⟩,
    count := 1, pidOk := true, cmdOk := true, restartConfigured := false,
    machine := some SState.up, timerPending := false,
    instances := [⟨0, "node1", SIState.up, 1, 1, 0⟩] }

/-- A replacement service for `prevS1` whose command template differs. -/
def newS1 : Service :=
  { command := "sleep 200", scheduler := none, node_pool := ⟨1, ["node1"], 1⟩,
    count := 1, pidOk := true, cmdOk := true, restartConfigured := false,
    machine := some SState.down, timerPending := false, instances := [] }

/-- A previous-generation service: `count = 3`, three up instances 0, 1, 2. -/
def prevS6 : Service :=
  { command := "run worker", scheduler := none, node_pool := ⟨1, ["node1"], 3⟩,
    count := 3, pidOk := true, cmdOk := true, restartConfigured := false,
    machine := some SState.up, timerPending := false,
    instances := [⟨0, "node1", SIState.up, 1, 2, 0⟩, ⟨1, "node1", SIState.up, 1, 2, 0⟩,
                  ⟨2, "node1", SIState.up, 1, 2, 0⟩] }

/-- A replacement for `prevS6` with the same command, scheduler and node pool
but `count` reduced to 1. -/
def newS6 : Service :=
  { command := "run worker", scheduler := none, node_pool := ⟨1, ["node1"], 3⟩,
    count := 1, pidOk := true, cmdOk := true, restartConfigured := false,
    machine := some SState.down, timerPending := false, instances := [] }

/-- The service `absorb_previous newS6 prevS6` produces: instance 0 still up,
instances 1 and 2 stopping, target count 1. -/
def resS6 : Service :=
  { command := "run worker", scheduler := none, node_pool := ⟨1, ["node1"], 3⟩,
    count := 1, pidOk := true, cmdOk := true, restartConfigured := false,
    machine := some SState.up, timerPending := false,
    instances := [⟨0, "node1", SIState.up, 1, 2, 0⟩, ⟨1, "node1", SIState.stopping, 1, 2, 1⟩,
                  ⟨2, "node1", SIState.stopping, 1, 2, 1⟩] }

/-! ## Claim theorems -/

/-- Claim C1 (code bug): with a differing command template and a previous
service holding one instance, `absorb_previous` does not stop every inherited
instance and complete the reconciliation passes — it raises UnboundLocalError
at `removed_instances += 1` (src/tron/service.py line 376; the variable's
first assignment is line 388). -/
theorem c1_theorem :
    Service.absorb_previous newS1 prevS1 = Except.error SvcErr.unboundLocal := by
  rfl

/-- Claim C2 counterexample: `store_data` called with writing enabled while a
previous snapshot write is still outstanding (`write_pid = 11`, the child not
yet exited). No second write is initiated — but the periodic re-arm does NOT
occur either, contradicting the claim that the re-arm happens in every case
where writing is enabled. -/
theorem c2_counterexample :
    (store_data ⟨true, some 11⟩ false 12).forkedWriter = false ∧
    ¬ (store_data ⟨true, some 11⟩ false 12).rearmed = true := by
  decide

/-- Claim C2 (amended): when `store_data` finds a previous write outstanding it
initiates no second write and returns without re-arming; the periodic re-arm
happens exactly on the calls that fork a writer — i.e. writing is enabled and
no previous write is outstanding. -/
theorem c2_theorem (h : StateHandlerSt) (childExited : Bool) (newPid : Nat) :
    (store_data h childExited newPid).forkedWriter = (store_data h childExited newPid).rearmed ∧
    ((store_data h childExited newPid).forkedWriter = true ↔
      h.writingEnabled = true ∧ (h.writePid = none ∨ childExited = true)) := by
  obtain ⟨we, wp⟩ := h
  cases we <;> cases childExited <;> cases wp <;> simp [store_data]

/-- Claim C3 counterexample: in the `ServiceInstance` machine, firing `stop`
in state `failed` does not land in `stopping` — `STATE_FAILED` maps `stop`
directly to `STATE_DOWN` (src/tron/service.py line 22). -/
theorem c3_counterexample :
    ¬ siTransition SIState.failed "stop" = SIState.stopping := by
  decide

/-- Claim C3 (amended): firing `stop` on a `failed` instance transitions the
machine directly to `down` (not `stopping`), so `stop()` dispatches no kill
command — the post-transition state is not `stopping`. -/
theorem c3_theorem (cfg : InstCfg) (s : InstSt) (h : s.st = SIState.failed) :
    instStep cfg s InstEv.stop = some { s with st := SIState.down } := by
  have hs : siTransition SIState.failed "stop" = SIState.down := by decide
  simp [instStep, h, hs]

/-- Claim C3 witness: `c3_theorem` evaluated on a concrete failed instance. -/
theorem c3_witness :
    instStep ⟨true, true, 30⟩ ⟨SIState.failed, false, false, false, 0, 0, 0, 0⟩ InstEv.stop =
      some ⟨SIState.down, false, false, false, 0, 0, 0, 0⟩ :=
  c3_theorem ⟨true, true, 30⟩ ⟨SIState.failed, false, false, false, 0, 0, 0, 0⟩ rfl

/-- Claim C4 counterexample: the reachable call sequence `start(); stop()` on a
fresh instance (exactly what `Service.build_instance` followed by a stop during
reconfiguration performs) leaves the start command and the kill command in
flight simultaneously — `stop()` lands the machine in `stopping` and dispatches
the kill at once (src/tron/service.py lines 159-174) while the start action's
callback has not fired, so two actions are outstanding, refuting "at most one
in-flight action at a time". -/
theorem c4_counterexample :
    instRun ⟨true, true, 30⟩ instInit [InstEv.start, InstEv.stop] =
      some ⟨SIState.stopping, true, false, true, 1, 0, 1, 0⟩ ∧
    (instRun ⟨true, true, 30⟩ instInit [InstEv.start, InstEv.stop]).map inFlight = some 2 := by
  decide

/-- Claim C4 (amended): only the monitor cycle is guarded against re-entrancy —
while `monitor_action` is recorded as outstanding, `_run_monitor` dispatches no
new action and changes nothing beyond consuming the fired timer; actions of
different kinds (a stop with a start or monitor) can however be in flight
simultaneously. -/
theorem c4_theorem (cfg : InstCfg) (s : InstSt) (h : s.monitorAct = true) :
    instStep cfg s InstEv.runMonitor =
      if s.timers = 0 then none else some { s with timers := s.timers - 1 } := by
  simp [instStep, h]

/-- Claim C4 witness: `c4_theorem` on a concrete instance with an outstanding
monitor action and one pending timer. -/
theorem c4_witness :
    instStep ⟨true, true, 30⟩ ⟨SIState.monitoring, false, true, false, 0, 1, 0, 1⟩ InstEv.runMonitor =
      some ⟨SIState.monitoring, false, true, false, 0, 1, 0, 0⟩ := by
  have h := c4_theorem ⟨true, true, 30⟩ ⟨SIState.monitoring, false, true, false, 0, 1, 0, 1⟩ rfl
  simpa using h

/-- Claim C8: `schedule_next_run` is idempotent while a scheduled run is
pending — after one call, a second call without the run firing is a no-op
(the job is unchanged and no second timer is armed), because the first call
either found `runs[0]` already scheduled or placed a fresh scheduled run
there. -/
theorem c8_theorem (j : Job) :
    schedule_next_run (schedule_next_run j).1 = ((schedule_next_run j).1, false) := by
  obtain ⟨e, hn, runs⟩ := j
  cases hn <;> rcases runs with _ | ⟨r, t⟩
  · simp [schedule_next_run, jobNextRun]
  · cases hr : r.isScheduled <;> simp [schedule_next_run, jobNextRun, hr]
  · simp [schedule_next_run, jobNextRun]
  · cases hr : r.isScheduled <;> simp [schedule_next_run, jobNextRun, hr]

/-- Claim C5: on every instance state change, `_instance_change` prunes the
instances sitting in `down`, then fires exactly the events the claim's priority
gives — `all_down` when no instances remain; `failed`, plus `all_failed` when
every instance is failed, when any is failed; else `down` when fewer instances
than `count`; else `all_up` when all are up — and arms a restart timer exactly
when the resulting state is `degraded` or `failed`, `restart_interval` is
configured, and no restart timer is already pending. -/
theorem c5_theorem (i : ICInput) :
    (instance_change i).instStates = i.instStates.filter (fun st => st ≠ SIState.down) ∧
    (instance_change i).svcState =
      (instance_change_priority (i.instStates.filter fun st => st ≠ SIState.down) i.count).foldl
        sTransition i.svcState ∧
    ((instance_change i).armed = true ↔
      ((instance_change i).svcState = SState.degraded ∨
        (instance_change i).svcState = SState.failed) ∧
        i.restartConfigured = true ∧ i.timerPending = false) ∧
    (instance_change i).timerPending = (i.timerPending || (instance_change i).armed) := by
  dsimp only [instance_change, instance_change_priority]
  split_ifs
  all_goals
    refine ⟨rfl, by simp only [List.foldl], ?_, ?_⟩
  all_goals
    first
      | exact iff_of_true rfl (by assumption)
      | exact iff_of_false (by simp) (by assumption)
      | simp

/-- Claim C6 counterexample: absorbing `prevS6` (three up instances, numbered
0, 1, 2) into `newS6` (same command, scheduler and node pool, `count = 1`)
stops the two highest-numbered instances but leaves them in the roster in
state `stopping`, so the roster holds instance numbers 1 and 2 with
`count = 1` — the numbers in use are not a subset of `[0, count)`. -/
theorem c6_counterexample :
    Service.absorb_previous newS6 prevS6 = Except.ok resS6 ∧
    resS6.count = 1 ∧
    resS6.instances.map Inst.instance_number = [0, 1, 2] ∧
    ¬ (∀ k ∈ resS6.instances.map Inst.instance_number, k < resS6.count) :=
  ⟨rfl, rfl, rfl, by decide⟩

/-- `sleep_time` computes exactly `max 0` of the elapsed microseconds over
`10^6`: the Python timedelta decomposition into days/seconds/microseconds
recombines to the exact difference in seconds. -/
theorem sleep_time_eq (run_time now : ℤ) :
    sleep_time run_time now = max 0 (((run_time - now : ℤ) : ℚ) / 1000000) := by
  have key : ∀ d : ℤ,
      ((d / USEC_PER_DAY : ℤ) : ℚ) * 86400 + ((d % USEC_PER_DAY / 1000000 : ℤ) : ℚ)
        + ((d % USEC_PER_DAY % 1000000 : ℤ) : ℚ) * MICRO_SEC = (d : ℚ) / 1000000 := by
    intro d
    have h1 : USEC_PER_DAY * (d / USEC_PER_DAY) + d % USEC_PER_DAY = d :=
      Int.ediv_add_emod d USEC_PER_DAY
    have h2 : (1000000 : ℤ) * (d % USEC_PER_DAY / 1000000) + d % USEC_PER_DAY % 1000000
        = d % USEC_PER_DAY := Int.ediv_add_emod (d % USEC_PER_DAY) 1000000
    have q1 : ((USEC_PER_DAY : ℤ) : ℚ) * ((d / USEC_PER_DAY : ℤ) : ℚ)
        + ((d % USEC_PER_DAY : ℤ) : ℚ) = (d : ℚ) := by
      exact_mod_cast congrArg (fun z : ℤ => (z : ℚ)) h1
    have q2 : (1000000 : ℚ) * ((d % USEC_PER_DAY / 1000000 : ℤ) : ℚ)
        + ((d % USEC_PER_DAY % 1000000 : ℤ) : ℚ) = ((d % USEC_PER_DAY : ℤ) : ℚ) := by
      exact_mod_cast congrArg (fun z : ℤ => (z : ℚ)) h2
    have hu : ((USEC_PER_DAY : ℤ) : ℚ) = 86400 * 1000000 := by unfold USEC_PER_DAY; push_cast; ring
    rw [hu] at q1
    unfold MICRO_SEC
    field_simp
    linarith
  unfold sleep_time
  dsimp only
  rw [key]

/-- Claim C9: `sleep_time(run_time)` equals `max(0, run_time - now)` in seconds
with sub-second precision (exact over `ℚ`); it is exactly 0 for any `run_time`
at or before `now`, equals `N` for a `run_time` `N` seconds in the future, and
is monotone in `run_time`. -/
theorem c9_theorem (run_time run_time2 now n : ℤ) :
    sleep_time run_time now = max 0 (((run_time - now : ℤ) : ℚ) / 1000000) ∧
    (run_time ≤ now → sleep_time run_time now = 0) ∧
    sleep_time (now + n * 1000000) now = max 0 (n : ℚ) ∧
    (run_time ≤ run_time2 → sleep_time run_time now ≤ sleep_time run_time2 now) := by
  refine ⟨sleep_time_eq run_time now, ?_, ?_, ?_⟩
  · intro h
    rw [sleep_time_eq]
    have hc : ((run_time - now : ℤ) : ℚ) ≤ 0 := by exact_mod_cast sub_nonpos.mpr h
    exact max_eq_left (div_nonpos_of_nonpos_of_nonneg hc (by norm_num))
  · rw [sleep_time_eq]
    have hn : ((now + n * 1000000 - now : ℤ) : ℚ) / 1000000 = (n : ℚ) := by
      push_cast
      field_simp
    rw [hn]
  · intro h
    rw [sleep_time_eq, sleep_time_eq]
    have hc : ((run_time - now : ℤ) : ℚ) ≤ ((run_time2 - now : ℤ) : ℚ) := by
      exact_mod_cast sub_le_sub_right h now
    gcongr

/-- Claim C9 witness: `c9_theorem` at concrete timestamps — a run time 7
microseconds in the past sleeps exactly 0, and sleeps are monotone between a
run 2.5 s and one 5 s in the future. -/
theorem c9_witness :
    sleep_time 3 10 = 0 ∧ sleep_time 2500000 0 ≤ sleep_time 5000000 0 :=
  ⟨(c9_theorem 3 0 10 0).2.1 (by decide),
   (c9_theorem 2500000 5000000 0 0).2.2.2 (by decide)⟩

/-- Claim C10: the `Service` machine accepts `start` in state `failed`,
transitioning to `starting` (src/tron/service.py line 199) — the transition
`_restart_after_failure`/`start()` relies on to recover an `all_failed`
service — while in state `degraded` the `start` event is absent from the
table (line 198), so a restart pass leaves the machine in `degraded`. -/
theorem c10_theorem :
    sTrans SState.failed "start" = some SState.starting ∧
    sTransition SState.failed "start" = SState.starting ∧
    sTrans SState.degraded "start" = none ∧
    sTransition SState.degraded "start" = SState.degraded := by
  decide

/-- Sorting the roster permutes it. -/
lemma sortInsts_perm (l : List Inst) : (sortInsts l).Perm l :=
  List.perm_insertionSort _ l

/-- Updating the instance holding a number leaves the roster's numbers
unchanged when the update preserves the number. -/
lemma map_updNum (n : Nat) (f : Inst → Inst) (l : List Inst)
    (hf : ∀ i, (f i).instance_number = i.instance_number) :
    (updNum n f l).map Inst.instance_number = l.map Inst.instance_number := by
  unfold updNum
  rw [List.map_map]
  apply List.map_congr_left
  intro a _
  by_cases h : a.instance_number = n <;> simp [h, hf]

/-- Members of an updated roster come from members of the original. -/
lemma mem_updNum {n : Nat} {f : Inst → Inst} {l : List Inst} {i : Inst}
    (h : i ∈ updNum n f l) :
    ∃ j ∈ l, i = if j.instance_number = n then f j else j := by
  unfold updNum at h
  obtain ⟨j, hj, rfl⟩ := List.mem_map.1 h
  exact ⟨j, hj, rfl⟩

/-- `_instance_change` leaves the roster unchanged when no instance is down. -/
lemma on_instance_change_roster (s : Service)
    (h : ∀ i ∈ s.instances, i.st ≠ SIState.down) :
    (Service.on_instance_change s).instances = s.instances := by
  rcases hm : s.machine with _ | m
  · unfold Service.on_instance_change
    rw [hm]
  · unfold Service.on_instance_change
    rw [hm]
    exact List.filter_eq_self.mpr fun a ha => by simpa using h a ha

/-- `_instance_change` touches only the roster, the machine and the restart
timer. -/
lemma on_instance_change_cmdOk (s : Service) :
    (Service.on_instance_change s).cmdOk = s.cmdOk := by
  unfold Service.on_instance_change
  cases s.machine <;> rfl

/-- `_find_unused_instance_number` is `None` exactly when every number below
`count` is in use. -/
lemma find_unused_none_iff (s : Service) :
    s.find_unused_instance_number = none ↔
      ∀ k < s.count, k ∈ s.instances.map Inst.instance_number := by
  unfold Service.find_unused_instance_number
  rw [List.head?_eq_none_iff, List.filter_eq_nil_iff]
  constructor
  · intro h k hk
    simpa using h k (List.mem_range.2 hk)
  · intro h k hk
    simpa using h k (List.mem_range.1 hk)

/-- When `_find_unused_instance_number` yields a number, it is below `count`,
unused, and the least such. -/
lemma find_unused_some (s : Service) (n : Nat)
    (h : s.find_unused_instance_number = some n) :
    n < s.count ∧ n ∉ s.instances.map Inst.instance_number ∧
      ∀ m < s.count, m ∉ s.instances.map Inst.instance_number → n ≤ m := by
  unfold Service.find_unused_instance_number at h
  set fl := (List.range s.count).filter
    (fun k => k ∉ s.instances.map Inst.instance_number) with hfl
  have hmem : n ∈ fl := List.mem_of_mem_head? (Option.mem_def.mpr h)
  have hn := List.mem_filter.1 hmem
  have hpw : fl.Pairwise (· < ·) :=
    List.Pairwise.sublist (List.filter_sublist _) (List.pairwise_lt_range _)
  obtain ⟨t, ht⟩ : ∃ t, fl = n :: t := by
    cases hc : fl with
    | nil => rw [hc] at h; simp at h
    | cons a t =>
      rw [hc] at h
      simp only [List.head?] at h
      obtain rfl : a = n := Option.some_inj.1 h
      exact ⟨t, rfl⟩
  refine ⟨List.mem_range.1 hn.1, by simpa using hn.2, ?_⟩
  intro m hm hmnot
  have hmfl : m ∈ fl := List.mem_filter.2 ⟨List.mem_range.2 hm, by simpa using hmnot⟩
  rw [ht] at hmfl hpw
  rcases List.mem_cons.1 hmfl with rfl | hmt
  · exact le_refl m
  · exact le_of_lt ((List.pairwise_cons.1 hpw).1 m hmt)

/-- Claim C6 (amended): instance numbers stay pairwise distinct and
`build_instance` allocates the lowest number in `[0, count)` unused by any
current instance — hence never one held by a live (non-down) instance — and
returns no instance when all `count` numbers are in use; distinctness is
preserved. (The roster can still hold numbers outside `[0, count)` after a
count-reducing `absorb_previous`; see the counterexample.) -/
theorem c6_theorem (s : Service)
    (hpool : s.node_pool.nodes ≠ [])
    (hnodup : (s.instances.map Inst.instance_number).Nodup)
    (hnodown : ∀ i ∈ s.instances, i.st ≠ SIState.down) :
    (s.find_unused_instance_number = none ↔
      ∀ k < s.count, k ∈ s.instances.map Inst.instance_number) ∧
    (∀ n, s.find_unused_instance_number = some n →
      n < s.count ∧ n ∉ s.instances.map Inst.instance_number ∧
      (∀ i ∈ s.instances, liveInst i → i.instance_number ≠ n) ∧
      (∀ m < s.count, m ∉ s.instances.map Inst.instance_number → n ≤ m)) ∧
    (s.find_unused_instance_number = none →
      ∃ s2, s.build_instance = Except.ok (s2, none) ∧ s2.instances = s.instances) ∧
    (∀ n, s.find_unused_instance_number = some n →
      ∃ s2, s.build_instance = Except.ok (s2, some n) ∧
        (s2.instances.map Inst.instance_number).Perm (n :: s.instances.map Inst.instance_number) ∧
        (s2.instances.map Inst.instance_number).Nodup) := by
  refine ⟨find_unused_none_iff s, ?_, ?_, ?_⟩
  · intro n hn
    obtain ⟨h1, h2, h3⟩ := find_unused_some s n hn
    refine ⟨h1, h2, ?_, h3⟩
    intro i hi _ hin
    exact h2 (List.mem_map.2 ⟨i, hi, hin⟩)
  · intro hnone
    unfold Service.build_instance
    rw [if_neg hpool]
    have h1 : ({ s with node_pool := { s.node_pool with rr := s.node_pool.rr + 1 } } : Service).find_unused_instance_number = none := hnone
    simp only [h1]
    exact ⟨_, rfl, rfl⟩
  · intro n hn
    obtain ⟨hnlt, hnnot, hmin⟩ := find_unused_some s n hn
    have hnum : ∀ j ∈ s.instances, j.instance_number ≠ n := by
      intro j hj hjn
      exact hnnot (List.mem_map.2 ⟨j, hj, hjn⟩)
    unfold Service.build_instance
    rw [if_neg hpool]
    have h1 : ({ s with node_pool := { s.node_pool with rr := s.node_pool.rr + 1 } } : Service).find_unused_instance_number = some n := hn
    simp only [h1]
    set nodeX := s.node_pool.nodes.getD (s.node_pool.rr % s.node_pool.nodes.length) "" with hnode
    set inst0 : Inst := ⟨n, nodeX, SIState.down, 0, 0, 0⟩ with hinst0
    set roster1 := sortInsts (s.instances ++ [inst0]) with hroster1
    set roster2 := updNum n (fun i => { i with st := SIState.starting }) roster1 with hroster2
    -- membership transfer for roster1
    have hr1mem : ∀ j ∈ roster1, j ∈ s.instances ∨ j = inst0 := by
      intro j hj
      have := (sortInsts_perm _).mem_iff.1 hj
      rcases List.mem_append.1 this with h | h
      · exact Or.inl h
      · exact Or.inr (List.mem_singleton.1 h)
    -- no instance of roster2 is down
    have hr2down : ∀ i ∈ roster2, i.st ≠ SIState.down := by
      intro i hi
      obtain ⟨j, hj, hij⟩ := mem_updNum hi
      rcases hr1mem j hj with hjs | rfl
      · rw [if_neg (hnum j hjs)] at hij
        rw [hij]
        exact hnodown j hjs
      · rw [if_pos rfl] at hij
        rw [hij]
        simp
    -- numbers of roster2
    have hr2num : (roster2.map Inst.instance_number).Perm
        (n :: s.instances.map Inst.instance_number) := by
      rw [hroster2,
        map_updNum n (fun i => { i with st := SIState.starting }) roster1 (fun i => rfl), hroster1]
      have hp1 : ((sortInsts (s.instances ++ [inst0])).map Inst.instance_number).Perm
          ((s.instances ++ [inst0]).map Inst.instance_number) :=
        (sortInsts_perm _).map _
      have hp2 : (s.instances ++ [inst0]).map Inst.instance_number
          = s.instances.map Inst.instance_number ++ [n] := by
        simp [hinst0]
      rw [hp2] at hp1
      exact hp1.trans List.perm_append_comm
    have hr2nodup : (roster2.map Inst.instance_number).Nodup :=
      (hr2num.nodup_iff).2 (List.nodup_cons.2 ⟨hnnot, hnodup⟩)
    set sMid : Service :=
      { s with node_pool := { s.node_pool with rr := s.node_pool.rr + 1 },
               instances := roster2 } with hsMid
    have hMidroster : (Service.on_instance_change sMid).instances = roster2 :=
      on_instance_change_roster sMid hr2down
    by_cases hc : s.cmdOk = true
    · have hc2 : (Service.on_instance_change sMid).cmdOk = true := by
        rw [on_instance_change_cmdOk]
        exact hc
      refine ⟨{ Service.on_instance_change sMid with
          instances := updNum n (fun i => { i with startDispatched := i.startDispatched + 1 })
            (Service.on_instance_change sMid).instances }, ?_, ?_, ?_⟩
      · rw [if_pos hc2]
      · dsimp only
        rw [hMidroster,
          map_updNum n (fun i => { i with startDispatched := i.startDispatched + 1 }) roster2
            (fun i => rfl)]
        exact hr2num
      · dsimp only
        rw [hMidroster,
          map_updNum n (fun i => { i with startDispatched := i.startDispatched + 1 }) roster2
            (fun i => rfl)]
        exact hr2nodup
    · have hc2 : ¬ ((Service.on_instance_change sMid).cmdOk = true) := by
        rw [on_instance_change_cmdOk]
        exact hc
      set sMid2 : Service :=
        { Service.on_instance_change sMid with
          instances := updNum n (fun i => { i with st := SIState.failed })
            (Service.on_instance_change sMid).instances } with hsMid2
      have hr3down : ∀ i ∈ sMid2.instances, i.st ≠ SIState.down := by
        intro i hi
        have hi2 : i ∈ updNum n (fun i => { i with st := SIState.failed }) roster2 := by
          rw [← hMidroster]
          exact hi
        obtain ⟨j, hj, hij⟩ := mem_updNum hi2
        by_cases hjn : j.instance_number = n
        · rw [if_pos hjn] at hij
          rw [hij]
          simp
        · rw [if_neg hjn] at hij
          rw [hij]
          exact hr2down j hj
      have h3roster : (Service.on_instance_change sMid2).instances = sMid2.instances :=
        on_instance_change_roster sMid2 hr3down
      refine ⟨Service.on_instance_change sMid2, ?_, ?_, ?_⟩
      · rw [if_neg hc2]
      · rw [h3roster]
        have hs2i : sMid2.instances
            = updNum n (fun i => { i with st := SIState.failed }) roster2 := by
          rw [hsMid2, hMidroster]
        rw [hs2i, map_updNum n (fun i => { i with st := SIState.failed }) roster2 (fun i => rfl)]
        exact hr2num
      · rw [h3roster]
        have hs2i : sMid2.instances
            = updNum n (fun i => { i with st := SIState.failed }) roster2 := by
          rw [hsMid2, hMidroster]
        rw [hs2i, map_updNum n (fun i => { i with st := SIState.failed }) roster2 (fun i => rfl)]
        exact hr2nodup

/-- One restored record: pool/pid/machine untouched, one new instance holding
the record's number, forced to `monitoring` with exactly one monitor dispatch
and no start dispatch; existing instances untouched. -/
lemma restore_instance_step (s : Service) (r : InstRecord)
    (hpid : s.pidOk = true) (hnode : r.node ∈ s.node_pool.nodes)
    (hfresh : r.instance_number ∉ s.instances.map Inst.instance_number) :
    (s.restore_instance r).pidOk = s.pidOk ∧
    (s.restore_instance r).node_pool = s.node_pool ∧
    (s.restore_instance r).machine = s.machine ∧
    ((s.restore_instance r).instances.map Inst.instance_number).Perm
      (r.instance_number :: s.instances.map Inst.instance_number) ∧
    (∀ i ∈ (s.restore_instance r).instances,
      (i.st = SIState.monitoring ∧ i.monitorDispatched = 1 ∧ i.startDispatched = 0) ∨
        i ∈ s.instances) := by
  have hnum : ∀ j ∈ s.instances, j.instance_number ≠ r.instance_number := by
    intro j hj hjn
    exact hfresh (List.mem_map.2 ⟨j, hj, hjn⟩)
  unfold Service.restore_instance
  rw [if_pos hnode]
  dsimp only
  rw [if_pos hpid]
  set inst0 : Inst := ⟨r.instance_number, r.node, SIState.down, 0, 0, 0⟩ with hinst0
  set roster1 := sortInsts (s.instances ++ [inst0]) with hroster1
  refine ⟨rfl, rfl, rfl, ?_, ?_⟩
  · dsimp only
    rw [map_updNum r.instance_number
        (fun i => { i with monitorDispatched := i.monitorDispatched + 1 }) _ (fun i => rfl),
      map_updNum r.instance_number (fun i => { i with st := SIState.monitoring }) roster1
        (fun i => rfl), hroster1]
    have hp1 : ((sortInsts (s.instances ++ [inst0])).map Inst.instance_number).Perm
        ((s.instances ++ [inst0]).map Inst.instance_number) :=
      (sortInsts_perm _).map _
    have hp2 : (s.instances ++ [inst0]).map Inst.instance_number
        = s.instances.map Inst.instance_number ++ [r.instance_number] := by
      simp [hinst0]
    rw [hp2] at hp1
    exact hp1.trans List.perm_append_comm
  · intro i hi
    obtain ⟨j, hj, hij⟩ := mem_updNum hi
    obtain ⟨j2, hj2, hij2⟩ := mem_updNum hj
    have hj2mem : j2 ∈ s.instances ∨ j2 = inst0 := by
      have hm := (sortInsts_perm _).mem_iff.1 hj2
      rcases List.mem_append.1 hm with h | h
      · exact Or.inl h
      · exact Or.inr (List.mem_singleton.1 h)
    rcases hj2mem with hj2s | rfl
    · rw [if_neg (hnum j2 hj2s)] at hij2
      rw [hij2] at hij
      rw [if_neg (hnum j2 hj2s)] at hij
      rw [hij]
      exact Or.inr hj2s
    · rw [if_pos rfl] at hij2
      rw [hij2] at hij
      rw [if_pos rfl] at hij
      rw [hij]
      exact Or.inl ⟨rfl, rfl, rfl⟩

/-- Folding `restore_instance` over records with fresh, mutually distinct
numbers on nodes present in the pool: the machine is untouched, the roster
numbers extend by exactly the record numbers, and every resulting instance is
`monitoring` with one monitor dispatch and no start dispatch provided the
existing ones were. -/
lemma restore_fold (recs : List InstRecord) : ∀ (s : Service),
    s.pidOk = true →
    (∀ r ∈ recs, r.node ∈ s.node_pool.nodes) →
    (recs.map InstRecord.instance_number ++ s.instances.map Inst.instance_number).Nodup →
    (∀ i ∈ s.instances, i.st = SIState.monitoring ∧ i.monitorDispatched = 1 ∧
      i.startDispatched = 0) →
    (recs.foldl Service.restore_instance s).machine = s.machine ∧
    ((recs.foldl Service.restore_instance s).instances.map Inst.instance_number).Perm
      (recs.map InstRecord.instance_number ++ s.instances.map Inst.instance_number) ∧
    (∀ i ∈ (recs.foldl Service.restore_instance s).instances,
      i.st = SIState.monitoring ∧ i.monitorDispatched = 1 ∧ i.startDispatched = 0) := by
  induction recs with
  | nil =>
    intro s hpid hnodes hnodup hP
    exact ⟨rfl, by simp, hP⟩
  | cons r rest ih =>
    intro s hpid hnodes hnodup hP
    have hfresh : r.instance_number ∉ s.instances.map Inst.instance_number := by
      have h1 : (r.instance_number :: (rest.map InstRecord.instance_number
          ++ s.instances.map Inst.instance_number)).Nodup := by
        simpa using hnodup
      intro hmem
      exact (List.nodup_cons.1 h1).1 (List.mem_append.2 (Or.inr hmem))
    obtain ⟨spid, spool, smach, sperm, smem⟩ :=
      restore_instance_step s r hpid (hnodes r (List.mem_cons_self r rest)) hfresh
    have hpid1 : (s.restore_instance r).pidOk = true := by rw [spid]; exact hpid
    have hnodes1 : ∀ r2 ∈ rest, r2.node ∈ (s.restore_instance r).node_pool.nodes := by
      intro r2 hr2
      rw [spool]
      exact hnodes r2 (List.mem_cons_of_mem r hr2)
    have hperm1 : (rest.map InstRecord.instance_number
          ++ (s.restore_instance r).instances.map Inst.instance_number).Perm
        (r.instance_number :: (rest.map InstRecord.instance_number
          ++ s.instances.map Inst.instance_number)) :=
      (sperm.append_left (rest.map InstRecord.instance_number)).trans List.perm_middle
    have hnodup1 : (rest.map InstRecord.instance_number
        ++ (s.restore_instance r).instances.map Inst.instance_number).Nodup := by
      rw [hperm1.nodup_iff]
      simpa using hnodup
    have hP1 : ∀ i ∈ (s.restore_instance r).instances,
        i.st = SIState.monitoring ∧ i.monitorDispatched = 1 ∧ i.startDispatched = 0 := by
      intro i hi
      rcases smem i hi with h | h
      · exact h
      · exact hP i h
    obtain ⟨imach, iperm, iP⟩ := ih (s.restore_instance r) hpid1 hnodes1 hnodup1 hP1
    refine ⟨?_, ?_, ?_⟩
    · rw [List.foldl_cons, imach, smach]
    · rw [List.foldl_cons]
      exact iperm.trans hperm1
    · rw [List.foldl_cons]
      exact iP

/-- Claim C7: round-trip — snapshotting a service whose machine is in `up`
with live instances (distinct numbers, nodes all present in the target pool)
and restoring onto a fresh same-configuration service (empty roster, pid file
renderable) recreates one instance per record, each forced directly into
`monitoring` with exactly one monitor dispatch and no start dispatch. -/
theorem c7_theorem (orig fresh : Service)
    (hm : orig.machine = some SState.up)
    (hlive : ∀ i ∈ orig.instances, liveInst i)
    (hnodes : ∀ i ∈ orig.instances, i.node ∈ fresh.node_pool.nodes)
    (hnodup : (orig.instances.map Inst.instance_number).Nodup)
    (hpid : fresh.pidOk = true)
    (hempty : fresh.instances = []) :
    ∃ d out, orig.data = some d ∧ fresh.restore d = Except.ok out ∧
      out.machine = some SState.up ∧
      out.instances.length = orig.instances.length ∧
      (∀ i ∈ out.instances, i.st = SIState.monitoring ∧
        i.monitorDispatched = 1 ∧ i.startDispatched = 0) := by
  set recs := orig.instances.map
    (fun i => (⟨i.node, i.instance_number, siName i.st⟩ : InstRecord)) with hrecs
  have hdata : orig.data = some ⟨"up", recs⟩ := by
    unfold Service.data
    rw [hm]
    rfl
  set s0 : Service := { fresh with machine := some SState.up } with hs0
  have hred : fresh.restore ⟨"up", recs⟩ =
      Except.ok { recs.foldl Service.restore_instance s0 with
        instances := sortInsts (recs.foldl Service.restore_instance s0).instances } := rfl
  have hrecnum : recs.map InstRecord.instance_number
      = orig.instances.map Inst.instance_number := by
    rw [hrecs, List.map_map]
    rfl
  have hs0i : s0.instances = [] := hempty
  have hnodes0 : ∀ r ∈ recs, r.node ∈ s0.node_pool.nodes := by
    intro r hr
    rw [hrecs] at hr
    obtain ⟨i, hi, rfl⟩ := List.mem_map.1 hr
    exact hnodes i hi
  have hnodup0 : (recs.map InstRecord.instance_number
      ++ s0.instances.map Inst.instance_number).Nodup := by
    rw [hrecnum, hs0i]
    simpa using hnodup
  have hP0 : ∀ i ∈ s0.instances, i.st = SIState.monitoring ∧
      i.monitorDispatched = 1 ∧ i.startDispatched = 0 := by
    intro i hi
    rw [hs0i] at hi
    exact absurd hi (List.not_mem_nil i)
  obtain ⟨fmach, fperm, fP⟩ := restore_fold recs s0 hpid hnodes0 hnodup0 hP0
  refine ⟨⟨"up", recs⟩, _, hdata, hred, ?_, ?_, ?_⟩
  · show (recs.foldl Service.restore_instance s0).machine = some SState.up
    rw [fmach]
  · show (sortInsts (recs.foldl Service.restore_instance s0).instances).length
      = orig.instances.length
    have h1 := fperm.length_eq
    simp only [List.length_append, List.length_map, hempty, List.length_nil, Nat.add_zero] at h1
    rw [(sortInsts_perm _).length_eq, h1, hrecs]
    simp
  · intro i hi
    exact fP i ((sortInsts_perm _).mem_iff.1 hi)


/-- A service with one up instance numbered 0 and `count = 2`: the next build
allocates number 1. -/
def svcW6 : Service :=
  { command := "run w", scheduler := none, node_pool := ⟨1, ["n1"], 0⟩,
    count := 2, pidOk := true, cmdOk := true, restartConfigured := false,
    machine := some SState.up, timerPending := false,
    instances := [⟨0, "n1", SIState.up, 1, 1, 0⟩] }

/-- Claim C6 witness: `c6_theorem` on `svcW6` — `build_instance` allocates the
lowest free number 1, keeping the numbers distinct. -/
theorem c6_witness :
    ∃ s2, svcW6.build_instance = Except.ok (s2, some 1) ∧
      (s2.instances.map Inst.instance_number).Perm
        (1 :: svcW6.instances.map Inst.instance_number) ∧
      (s2.instances.map Inst.instance_number).Nodup :=
  (c6_theorem svcW6 (by decide) (by decide) (by decide)).2.2.2 1 (by decide)

/-- A service in state `up` with two live instances on nodes `a` and `b`. -/
def origS7 : Service :=
  { command := "run w", scheduler := none, node_pool := ⟨2, ["a", "b"], 5⟩,
    count := 2, pidOk := true, cmdOk := true, restartConfigured := true,
    machine := some SState.up, timerPending := false,
    instances := [⟨0, "a", SIState.up, 1, 4, 0⟩, ⟨1, "b", SIState.up, 1, 4, 0⟩] }

/-- A fresh service with the same configuration as `origS7`. -/
def freshS7 : Service :=
  { command := "run w", scheduler := none, node_pool := ⟨2, ["a", "b"], 0⟩,
    count := 2, pidOk := true, cmdOk := true, restartConfigured := true,
    machine := some SState.down, timerPending := false, instances := [] }

/-- Claim C7 witness: `c7_theorem` on the concrete snapshot/restore pair. -/
theorem c7_witness :
    ∃ d out, origS7.data = some d ∧ freshS7.restore d = Except.ok out ∧
      out.machine = some SState.up ∧
      out.instances.length = origS7.instances.length ∧
      (∀ i ∈ out.instances, i.st = SIState.monitoring ∧
        i.monitorDispatched = 1 ∧ i.startDispatched = 0) :=
  c7_theorem origS7 freshS7 rfl (by decide) (by decide) (by decide) rfl rfl

end Tron
